/-
  Verification development for the library-management business-logic layer
  (services/library_service.py), formalised as a shallow embedding.

  The persistence accessors (database.py) and the payment gateway
  (services/payment_service.py) are external collaborators whose code is not
  part of the service layer; they are modelled from the specification's
  accessor contract (spec §6) and glossary.  The service functions themselves
  are translated line by line from services/library_service.py.

  Conventions of the embedding:
  - a Python `datetime` is an integer timestamp in seconds (`Datetime`);
    `dateOf` projects it to a date (day ordinal) by floor division, so
    date-only subtraction and `timedelta.days` are floor divisions by 86400;
  - currency values (Python `Decimal` / `float`) are exact rationals;
  - the dict returned by `calculate_late_fee_for_book` is an association
    list from string keys to dynamically typed values (`PyVal`), so that the
    `in`-dict membership test in `pay_late_fees` is represented faithfully;
  - text renderings of dates and money inside human-readable messages
    (`strftime`, `isoformat`, `:.2f`) are abstracted by injective encodings;
    no theorem depends on their concrete spelling;
  - Python's stable `list.sort` is an insertion sort on a key order;
  - Python's `str.casefold` is modelled as character-wise lowering.
-/
import Mathlib

/-- A point in time, in seconds (the embedding of Python `datetime`). -/
abbrev Datetime := Int

/-- The date (day ordinal) of a timestamp: embedding of `datetime.date()`.
Floor division matches Python day arithmetic. -/
def dateOf (t : Datetime) : Int := t.fdiv 86400

/-- Whole days of the timedelta `a - b`: embedding of `(a - b).days`,
which floors towards minus infinity in Python. -/
def daysBetween (a b : Datetime) : Int := (a - b).fdiv 86400

/-- Injective textual encoding standing in for `strftime("%Y-%m-%d")` /
`isoformat()`; no claim inspects the concrete calendar spelling. -/
def fmtDate (t : Datetime) : String := toString t

/-- Textual rendering standing in for the `:.2f` money format. -/
def fmtMoney (q : ℚ) : String := toString q.num ++ "/" ++ toString q.den

/-- Does the character list start with the given needle?
(Embedding of Python `str.startswith` at the character level.) -/
def listStartsWith : List Char → List Char → Bool
  | [], _ => true
  | _ :: _, [] => false
  | a :: as, b :: bs => a == b && listStartsWith as bs

/-- Substring occurrence `needle ⊑ haystack`
(embedding of Python `needle in haystack` on strings). -/
def listHasSub (n : List Char) : List Char → Bool
  | [] => n.isEmpty
  | c :: t => listStartsWith n (c :: t) || listHasSub n t

/-- Python `needle in haystack` for strings. -/
def pySubstr (needle hay : String) : Bool := listHasSub needle.data hay.data

/-- Python `s.startswith(p)`. -/
def pyStartsWith (s p : String) : Bool := listStartsWith p.data s.data

/-- Python `str.strip()`: drop whitespace from both ends. -/
def pyStrip (s : String) : String :=
  ⟨((s.data.dropWhile Char.isWhitespace).reverse.dropWhile Char.isWhitespace).reverse⟩

/-- Python `str.casefold()` / `str.lower()`, modelled as character-wise
lowering (all data relevant to the claims is ASCII). -/
def pyFold (s : String) : String := ⟨s.data.map Char.toLower⟩

/-- ISBN normalisation from `search_books_in_catalog._norm_isbn`:
remove every hyphen and space. -/
def normIsbn (s : String) : String :=
  ⟨s.data.filter (fun c => !(c == '-') && !(c == ' '))⟩

/-- `Decimal.quantize(Decimal("0.01"), rounding=ROUND_HALF_UP)` on a
nonnegative amount: round to two decimals, halves upward. -/
def roundHalfUp2 (q : ℚ) : ℚ := (Int.floor (q * 100 + 1/2) : ℚ) / 100

/-- A catalog entry (spec §3, Book). -/
structure Book where
  id : Int
  title : String
  author : String
  isbn : String
  total_copies : Int
  available_copies : Int
deriving DecidableEq

/-- A loan record (spec §3, BorrowRecord); `return_date = none` while active. -/
structure BorrowRecord where
  patron_id : String
  book_id : Int
  borrow_date : Datetime
  due_date : Datetime
  return_date : Option Datetime
deriving DecidableEq

/-- The durable store owned by the persistence accessors (spec §3). -/
structure LibraryDb where
  books : List Book
  borrows : List BorrowRecord
  next_id : Int
deriving DecidableEq

/-- A row of `get_patron_borrowed_books` (spec §6): an active loan joined
with its book's title and author, plus the store-provided overdue flag. -/
structure LoanRow where
  book_id : Int
  title : String
  author : String
  borrow_date : Datetime
  due_date : Datetime
  is_overdue : Bool
deriving DecidableEq

/-- A dynamically typed Python value as stored in the fee dict. -/
inductive PyVal where
  | float : ℚ → PyVal
  | int : Int → PyVal
  | str : String → PyVal
deriving DecidableEq

/-- The dict returned by `calculate_late_fee_for_book`, as an association
list in insertion order. -/
abbrev FeeDict := List (String × PyVal)

/-- Construction site of the fee dict: keys in source order. -/
def feeDict (fee : ℚ) (days : Int) (status : String) : FeeDict :=
  [("fee_amount", PyVal.float fee), ("days_overdue", PyVal.int days),
   ("status", PyVal.str status)]

/-- Python `d[k]` lookup (first binding). -/
def dictLookup (d : FeeDict) (k : String) : Option PyVal :=
  (d.find? (fun kv => kv.1 == k)).map (fun kv => kv.2)

/-- Python `k in d`. -/
def dictContains (d : FeeDict) (k : String) : Bool := (dictLookup d k).isSome

/-- Python `d.get(k, default)` where a float is expected. -/
def dictGetFloat (d : FeeDict) (k : String) (dflt : ℚ) : ℚ :=
  match dictLookup d k with
  | some (PyVal.float q) => q
  | _ => dflt

/-- Python `d.get(k, default)` where an int is expected. -/
def dictGetIntVal (d : FeeDict) (k : String) (dflt : Int) : Int :=
  match dictLookup d k with
  | some (PyVal.int n) => n
  | _ => dflt

/-- Modelled from the spec: `database.get_book_by_id(id) -> Book|None`
(spec §6); first record with the given id. -/
def get_book_by_id (db : LibraryDb) (book_id : Int) : Option Book :=
  db.books.find? (fun b => b.id == book_id)

/-- Modelled from the spec: `database.get_book_by_isbn(isbn) -> Book|None`
(spec §6). -/
def get_book_by_isbn (db : LibraryDb) (isbn : String) : Option Book :=
  db.books.find? (fun b => b.isbn == isbn)

/-- Modelled from the spec: `database.get_all_books() -> [Book]` (spec §6). -/
def get_all_books (db : LibraryDb) : List Book := db.books

/-- Modelled from the spec: `database.insert_book(title, author, isbn,
total, available) -> bool` (spec §6); the store assigns the next id. -/
def insert_book (db : LibraryDb) (title author isbn : String)
    (total available : Int) : LibraryDb × Bool :=
  ({ books := db.books ++
       [{ id := db.next_id, title := title, author := author, isbn := isbn,
          total_copies := total, available_copies := available }],
     borrows := db.borrows, next_id := db.next_id + 1 }, true)

/-- Modelled from the spec: `database.get_patron_borrow_count(patron_id)
-> int` (spec §6): the number of the patron's active loans. -/
def get_patron_borrow_count (db : LibraryDb) (patron_id : String) : Nat :=
  (db.borrows.filter
    (fun r => r.patron_id == patron_id && r.return_date.isNone)).length

/-- Modelled from the spec: `database.get_patron_borrowed_books(patron_id)`
(spec §6): rows for the active loans only, each carrying book_id, title,
author, borrow_date, due_date and is_overdue; per the glossary a loan is
overdue when its due date is strictly before the current date. -/
def get_patron_borrowed_books (now : Datetime) (db : LibraryDb)
    (patron_id : String) : List LoanRow :=
  (db.borrows.filter
    (fun r => r.patron_id == patron_id && r.return_date.isNone)).map
    (fun r =>
      { book_id := r.book_id,
        title := ((get_book_by_id db r.book_id).map Book.title).getD "",
        author := ((get_book_by_id db r.book_id).map Book.author).getD "",
        borrow_date := r.borrow_date,
        due_date := r.due_date,
        is_overdue := dateOf r.due_date < dateOf now })

/-- Modelled from the spec: `database.update_book_availability(id, delta)
-> bool` (spec §6): adjust the available-copy count of the book. -/
def update_book_availability (db : LibraryDb) (book_id delta : Int) :
    LibraryDb × Bool :=
  if db.books.any (fun b => b.id == book_id) then
    ({ db with books := db.books.map (fun b =>
        if b.id == book_id then
          { b with available_copies := b.available_copies + delta }
        else b) }, true)
  else (db, false)

/-- Close the first active record matching (patron, book); `none` when no
matching active record exists. -/
def setReturnDate (pid : String) (bid : Int) (rd : Datetime) :
    List BorrowRecord → Option (List BorrowRecord)
  | [] => none
  | r :: rs =>
    if r.patron_id == pid && r.book_id == bid && r.return_date.isNone then
      some ({ r with return_date := some rd } :: rs)
    else
      (setReturnDate pid bid rd rs).map (fun rs1 => r :: rs1)

/-- Modelled from the spec: `database.update_borrow_record_return_date(
patron_id, book_id, return_date) -> bool` (spec §6): returns false if no
matching active record. -/
def update_borrow_record_return_date (db : LibraryDb) (patron_id : String)
    (book_id : Int) (return_date : Datetime) : LibraryDb × Bool :=
  match setReturnDate patron_id book_id return_date db.borrows with
  | none => (db, false)
  | some borrows1 => ({ db with borrows := borrows1 }, true)

/-- Modelled from the spec: `insert_borrow_record(patron_id, book_id,
borrow_date, due_date) -> bool` (spec §6). -/
def insert_borrow_record (db : LibraryDb) (patron_id : String) (book_id : Int)
    (borrow_date due_date : Datetime) : LibraryDb × Bool :=
  ({ db with borrows := db.borrows ++
      [{ patron_id := patron_id, book_id := book_id,
         borrow_date := borrow_date, due_date := due_date,
         return_date := none }] }, true)

/-- Modelled from the spec: the external payment gateway (spec §6); an
`Except.error` outcome stands for a raised exception. -/
structure PaymentGateway where
  process_payment : String → ℚ → String → Except String (Bool × Option String × String)
  refund_payment : String → ℚ → Except String (Bool × String)

/-- The patron-id validation used across the service layer:
`patron_id and patron_id.isdigit() and len(patron_id) == 6`. -/
def validPatronId (pid : String) : Bool :=
  !(pid == "") && pid.data.all Char.isDigit && pid.length == 6

/-- `add_book_to_catalog(title, author, isbn, total_copies)` from
services/library_service.py; the store is threaded explicitly. -/
def add_book_to_catalog (db : LibraryDb) (title author isbn : String)
    (total_copies : Int) : LibraryDb × Bool × String :=
  if pyStrip title == "" then (db, false, "Title is required.")
  else if 200 < (pyStrip title).length then
    (db, false, "Title must be less than 200 characters.")
  else if pyStrip author == "" then (db, false, "Author is required.")
  else if 100 < (pyStrip author).length then
    (db, false, "Author must be less than 100 characters.")
  else if !(isbn.length == 13) then
    (db, false, "ISBN must be exactly 13 digits.")
  else if total_copies ≤ 0 then
    (db, false, "Total copies must be a positive integer.")
  else match get_book_by_isbn db isbn with
    | some _ => (db, false, "A book with this ISBN already exists.")
    | none =>
      let res := insert_book db (pyStrip title) (pyStrip author) isbn
        total_copies total_copies
      if res.2 then
        (res.1, true, "Book \x22" ++ pyStrip title ++
          "\x22 has been successfully added to the catalog.")
      else (res.1, false, "Database error occurred while adding the book.")

/-- `borrow_book_by_patron(patron_id, book_id)` from
services/library_service.py; `now` is the ambient `datetime.now()`. -/
def borrow_book_by_patron (now : Datetime) (db : LibraryDb) (patron_id : String)
    (book_id : Int) : LibraryDb × Bool × String :=
  if !(validPatronId patron_id) then
    (db, false, "Invalid patron ID. Must be exactly 6 digits.")
  else match get_book_by_id db book_id with
    | none => (db, false, "Book not found.")
    | some book =>
      if book.available_copies ≤ 0 then
        (db, false, "This book is currently not available.")
      else if 5 < get_patron_borrow_count db patron_id then
        (db, false, "You have reached the maximum borrowing limit of 5 books.")
      else
        let due_date := now + 14 * 86400
        let ins := insert_borrow_record db patron_id book_id now due_date
        if !ins.2 then
          (ins.1, false, "Database error occurred while creating borrow record.")
        else
          let upd := update_book_availability ins.1 book_id (-1)
          if !upd.2 then
            (upd.1, false, "Database error occurred while updating book availability.")
          else
            (upd.1, true, "Successfully borrowed \x22" ++ book.title ++
              "\x22. Due date: " ++ fmtDate due_date ++ ".")

/-- `calculate_late_fee_for_book`'s tiered fee with cap, factored out of the
function body: `min(d,7)*0.50 + max(d-7,0)*1.00`, capped at `15.00`, then
quantized half-up to two decimals. -/
def lateFeeAmount (days_overdue : Int) : ℚ :=
  let first := (min days_overdue 7 : Int) * (1/2 : ℚ)
  let rest := (max (days_overdue - 7) 0 : Int) * (1 : ℚ)
  roundHalfUp2 (min (first + rest) 15)

/-- `calculate_late_fee_for_book(patron_id, book_id)` from
services/library_service.py, returning the fee dict. -/
def calculate_late_fee_for_book (now : Datetime) (db : LibraryDb)
    (patron_id : String) (book_id : Int) : FeeDict :=
  if !(validPatronId patron_id) then feeDict 0 0 "Invalid patron ID"
  else match get_book_by_id db book_id with
    | none => feeDict 0 0 "Book not found"
    | some _ =>
      match (get_patron_borrowed_books now db patron_id).find?
          (fun r => r.book_id == book_id) with
      | none => feeDict 0 0 "Book not currently borrowed"
      | some active =>
        let days_overdue := max (dateOf now - dateOf active.due_date) 0
        feeDict (lateFeeAmount days_overdue) days_overdue "OK"

/-- `return_book_by_patron(patron_id, book_id)` from
services/library_service.py. -/
def return_book_by_patron (now : Datetime) (db : LibraryDb) (patron_id : String)
    (book_id : Int) : LibraryDb × Bool × String :=
  match get_book_by_id db book_id with
  | none => (db, false, "Book not found.")
  | some book =>
    let late := calculate_late_fee_for_book now db patron_id book_id
    let fee := dictGetFloat late "fee_amount" 0
    let days := dictGetIntVal late "days_overdue" 0
    let upd := update_borrow_record_return_date db patron_id book_id now
    if !upd.2 then
      (db, false, "This book is not currently being borrowed by this patron.")
    else
      let avail := update_book_availability upd.1 book_id 1
      if !avail.2 then
        (avail.1, false, "Database error occurred while updating book availability.")
      else if 0 < fee then
        (avail.1, true, "Return processed for \x22" ++ book.title ++
          "\x22. Late by " ++ toString days ++ " day(s). Fee due: $" ++
          fmtMoney fee ++ ".")
      else
        (avail.1, true, "Return processed for \x22" ++ book.title ++
          "\x22. No late fees owed.\x22 ")

/-- The sort key of `search_books_in_catalog`: (casefolded title,
casefolded author), compared lexicographically. -/
def bookKeyLe (a b : Book) : Bool :=
  (pyFold a.title < pyFold b.title) ||
    (pyFold a.title == pyFold b.title && pyFold a.author ≤ pyFold b.author)

/-- Stable insertion into a list sorted by `bookKeyLe`. -/
def bookInsert (b : Book) : List Book → List Book
  | [] => [b]
  | x :: xs => if bookKeyLe b x then b :: x :: xs else x :: bookInsert b xs

/-- Python's stable `results.sort(key=...)` (only the ordering of the
output matters to the source; every claim uses membership only). -/
def bookSort : List Book → List Book
  | [] => []
  | x :: xs => bookInsert x (bookSort xs)

/-- The per-book match predicate of `search_books_in_catalog` for a given
resolved search type, folded term and normalised term. -/
def searchMatches (stype termFold normTerm : String) (b : Book) : Bool :=
  let title := pyFold b.title
  let author := pyFold b.author
  let isbn := normIsbn b.isbn
  if stype == "title" then pySubstr termFold title
  else if stype == "author" then pySubstr termFold author
  else if stype == "isbn" then normTerm == isbn
  else
    pySubstr termFold title || pySubstr termFold author ||
      (!(normTerm == "") && pySubstr normTerm isbn)

/-- `search_books_in_catalog(search_term, search_type)` from
services/library_service.py. -/
def search_books_in_catalog (db : LibraryDb) (search_term search_type : String) :
    List Book :=
  if pyStrip search_term == "" then []
  else
    let term := pyStrip search_term
    let termFold := pyFold term
    let stypeRaw := pyFold (if search_type == "" then "all" else search_type)
    let stype :=
      if ["title", "author", "isbn", "all"].contains stypeRaw then stypeRaw
      else "all"
    let normTerm := normIsbn term
    bookSort ((get_all_books db).filter (searchMatches stype termFold normTerm))

/-- A row of the `borrowed_books` list in the patron status report. -/
structure ReportRow where
  book_id : Int
  title : String
  author : String
  borrow_date : Option String
  due_date : Option String
  is_overdue : Bool
  days_overdue : Int
deriving DecidableEq

/-- The patron status report returned by `get_patron_status_report`. -/
structure PatronReport where
  patron_id : String
  borrowed_count : Nat
  remaining_allowance : Int
  overdue_count : Nat
  next_due_date : Option String
  borrowed_books : List ReportRow
  status : String
deriving DecidableEq

/-- One pass of the report loop body of `get_patron_status_report` over a
single active-loan row: updates (overdue_count, next_due_dt, report rows). -/
def reportStep (now : Datetime) (acc : Nat × Option Datetime × List ReportRow)
    (item : LoanRow) : Nat × Option Datetime × List ReportRow :=
  let days_overdue : Int :=
    if item.is_overdue then max (daysBetween now item.due_date) 0 else 0
  let next_due :=
    match acc.2.1 with
    | none => some item.due_date
    | some d => if item.due_date < d then some item.due_date else some d
  let overdue_count := if item.is_overdue then acc.1 + 1 else acc.1
  (overdue_count, next_due, acc.2.2 ++
    [{ book_id := item.book_id, title := item.title, author := item.author,
       borrow_date := some (fmtDate item.borrow_date),
       due_date := some (fmtDate item.due_date),
       is_overdue := item.is_overdue, days_overdue := days_overdue }])

/-- `get_patron_status_report(patron_id)` from services/library_service.py. -/
def get_patron_status_report (now : Datetime) (db : LibraryDb)
    (patron_id : String) : PatronReport :=
  if !(validPatronId patron_id) then
    { patron_id := patron_id, borrowed_count := 0, remaining_allowance := 5,
      overdue_count := 0, next_due_date := none, borrowed_books := [],
      status := "Invalid patron ID. Must be exactly 6 digits." }
  else
    let rows := get_patron_borrowed_books now db patron_id
    let borrowed_count := get_patron_borrow_count db patron_id
    let loop := rows.foldl (reportStep now) (0, none, [])
    { patron_id := patron_id, borrowed_count := borrowed_count,
      remaining_allowance := max 0 (5 - (borrowed_count : Int)),
      overdue_count := loop.1,
      next_due_date := loop.2.1.map fmtDate,
      borrowed_books := loop.2.2,
      status := "OK" }

/-- `pay_late_fees(patron_id, book_id, payment_gateway)` from
services/library_service.py; the gateway is the injected instance. -/
def pay_late_fees (now : Datetime) (db : LibraryDb) (patron_id : String)
    (book_id : Int) (payment_gateway : PaymentGateway) :
    Bool × String × Option String :=
  if !(validPatronId patron_id) then
    (false, "Invalid patron ID. Must be exactly 6 digits.", none)
  else
    let fee_info := calculate_late_fee_for_book now db patron_id book_id
    if !(dictContains fee_info "fee_amount") then
      (false, "Unable to calculate late fees.", none)
    else
      let fee_amount := dictGetFloat fee_info "fee_amount" 0
      if fee_amount ≤ 0 then
        (false, "No late fees to pay for this book.", none)
      else match get_book_by_id db book_id with
        | none => (false, "Book not found.", none)
        | some book =>
          match payment_gateway.process_payment patron_id fee_amount
              ("Late fees for \x27" ++ book.title ++ "\x27") with
          | Except.ok (true, transaction_id, message) =>
            (true, "Payment successful! " ++ message, transaction_id)
          | Except.ok (false, _, message) =>
            (false, "Payment failed: " ++ message, none)
          | Except.error e =>
            (false, "Payment processing error: " ++ e, none)

/-- `refund_late_fee_payment(transaction_id, amount, payment_gateway)` from
services/library_service.py. -/
def refund_late_fee_payment (transaction_id : String) (amount : ℚ)
    (payment_gateway : PaymentGateway) : Bool × String :=
  if transaction_id == "" || !(pyStartsWith transaction_id "txn_") then
    (false, "Invalid transaction ID.")
  else if amount ≤ 0 then
    (false, "Refund amount must be greater than 0.")
  else if 15 < amount then
    (false, "Refund amount exceeds maximum late fee.")
  else
    match payment_gateway.refund_payment transaction_id amount with
    | Except.ok (true, message) => (true, message)
    | Except.ok (false, message) => (false, "Refund failed: " ++ message)
    | Except.error e => (false, "Refund processing error: " ++ e)

lemma listStartsWith_self : ∀ l : List Char, listStartsWith l l = true
  | [] => rfl
  | a :: as => by simp [listStartsWith, listStartsWith_self as]

lemma pySubstr_self (s : String) : pySubstr s s = true := by
  show listHasSub s.data s.data = true
  cases h : s.data with
  | nil => rfl
  | cons c t => simp [listHasSub, listStartsWith_self]

lemma mem_bookInsert (b x : Book) (l : List Book) :
    b ∈ bookInsert x l ↔ b = x ∨ b ∈ l := by
  induction l with
  | nil => simp [bookInsert]
  | cons y ys ih =>
    simp only [bookInsert]
    split
    · simp
    · simp only [List.mem_cons, ih]
      tauto

lemma mem_bookSort (b : Book) (l : List Book) : b ∈ bookSort l ↔ b ∈ l := by
  induction l with
  | nil => simp [bookSort]
  | cons x xs ih => simp [bookSort, mem_bookInsert, ih]

lemma dictGetFloat_feeDict (q : ℚ) (d : Int) (s : String) :
    dictGetFloat (feeDict q d s) "fee_amount" 0 = q := rfl

lemma dictGetIntVal_feeDict (q : ℚ) (d : Int) (s : String) :
    dictGetIntVal (feeDict q d s) "days_overdue" 0 = d := rfl

lemma dictContains_feeDict (q : ℚ) (d : Int) (s : String) :
    dictContains (feeDict q d s) "fee_amount" = true := rfl

lemma calc_fee_invalid (now : Datetime) (db : LibraryDb) (pid : String)
    (bid : Int) (hpid : validPatronId pid = false) :
    calculate_late_fee_for_book now db pid bid = feeDict 0 0 "Invalid patron ID" := by
  simp [calculate_late_fee_for_book, hpid]

lemma calc_fee_no_book (now : Datetime) (db : LibraryDb) (pid : String)
    (bid : Int) (hpid : validPatronId pid = true)
    (hb : get_book_by_id db bid = none) :
    calculate_late_fee_for_book now db pid bid = feeDict 0 0 "Book not found" := by
  simp [calculate_late_fee_for_book, hpid, hb]

lemma calc_fee_no_active (now : Datetime) (db : LibraryDb) (pid : String)
    (bid : Int) (book : Book) (hpid : validPatronId pid = true)
    (hb : get_book_by_id db bid = some book)
    (hrec : (get_patron_borrowed_books now db pid).find?
      (fun r => r.book_id == bid) = none) :
    calculate_late_fee_for_book now db pid bid =
      feeDict 0 0 "Book not currently borrowed" := by
  simp [calculate_late_fee_for_book, hpid, hb, hrec]

lemma calc_fee_ok (now : Datetime) (db : LibraryDb) (pid : String) (bid : Int)
    (book : Book) (rec : LoanRow) (hpid : validPatronId pid = true)
    (hb : get_book_by_id db bid = some book)
    (hrec : (get_patron_borrowed_books now db pid).find?
      (fun r => r.book_id == bid) = some rec) :
    calculate_late_fee_for_book now db pid bid =
      feeDict (lateFeeAmount (max (dateOf now - dateOf rec.due_date) 0))
        (max (dateOf now - dateOf rec.due_date) 0) "OK" := by
  simp [calculate_late_fee_for_book, hpid, hb, hrec]

lemma roundHalfUp2_fifteen : roundHalfUp2 15 = 15 := by
  norm_num [roundHalfUp2]

lemma lateFeeAmount_cap (d : Int) (hd : 20 ≤ d) : lateFeeAmount d = 15 := by
  unfold lateFeeAmount
  have h1 : min d 7 = 7 := min_eq_right (by omega)
  have h2 : max (d - 7) 0 = d - 7 := max_eq_left (by omega)
  rw [h1, h2]
  have hdq : (20 : ℚ) ≤ (d : ℚ) := by exact_mod_cast hd
  have h3 : (15 : ℚ) ≤ ((7 : Int) : ℚ) * (1/2) + ((d - 7 : Int) : ℚ) * 1 := by
    push_cast
    linarith
  simp only [min_eq_right h3]
  exact roundHalfUp2_fifteen

lemma lateFeeAmount_spec (d : Int) :
    lateFeeAmount d =
      roundHalfUp2 (min ((1/2 : ℚ) * ((min d 7 : Int) : ℚ) +
        1 * ((max (d - 7) 0 : Int) : ℚ)) 15) := by
  simp only [lateFeeAmount]
  congr 1
  congr 1
  ring

/-- C1: with a well-formed 6-digit patron id, an existing book and an active
borrow record, `calculate_late_fee_for_book` reports
`days_overdue = max(0, today - due, date-only)` and the tiered fee
`min(0.50*min(d,7) + 1.00*max(d-7,0), 15.00)` rounded half-up to 2 decimals
with status "OK"; the schedule yields 0.00, 1.50, 3.50, 4.50, 15.00, 15.00
at 0, 3, 7, 8, 20, 40 days and 15.00 for every d ≥ 20. -/
theorem C1_late_fee_schedule (now : Datetime) (db : LibraryDb) (pid : String)
    (bid : Int) (book : Book) (rec : LoanRow) (d : Int)
    (hpid : validPatronId pid = true)
    (hb : get_book_by_id db bid = some book)
    (hrec : (get_patron_borrowed_books now db pid).find?
      (fun r => r.book_id == bid) = some rec)
    (hd : d = max (dateOf now - dateOf rec.due_date) 0) :
    calculate_late_fee_for_book now db pid bid =
      feeDict (roundHalfUp2 (min ((1/2 : ℚ) * ((min d 7 : Int) : ℚ) +
        1 * ((max (d - 7) 0 : Int) : ℚ)) 15)) d "OK"
    ∧ lateFeeAmount 0 = 0 ∧ lateFeeAmount 3 = 3/2 ∧ lateFeeAmount 7 = 7/2
    ∧ lateFeeAmount 8 = 9/2 ∧ lateFeeAmount 20 = 15 ∧ lateFeeAmount 40 = 15
    ∧ ∀ e : Int, 20 ≤ e → lateFeeAmount e = 15 := by
  subst hd
  refine ⟨?_, ?_, ?_, ?_, ?_, ?_, ?_, fun e he => lateFeeAmount_cap e he⟩
  · rw [calc_fee_ok now db pid bid book rec hpid hb hrec, lateFeeAmount_spec]
  · norm_num [lateFeeAmount, roundHalfUp2, min_def, max_def]
  · norm_num [lateFeeAmount, roundHalfUp2, min_def, max_def]
  · norm_num [lateFeeAmount, roundHalfUp2, min_def, max_def]
  · norm_num [lateFeeAmount, roundHalfUp2, min_def, max_def]
  · exact lateFeeAmount_cap 20 (by omega)
  · exact lateFeeAmount_cap 40 (by omega)

def bkW1 : Book :=
  { id := 1, title := "T", author := "A", isbn := "1234567890123",
    total_copies := 2, available_copies := 2 }

def rowW1 : LoanRow :=
  { book_id := 1, title := "T", author := "A", borrow_date := -1209600,
    due_date := -259200, is_overdue := true }

def dbW1 : LibraryDb :=
  { books := [bkW1],
    borrows := [{ patron_id := "123456", book_id := 1,
                  borrow_date := -1209600, due_date := -259200,
                  return_date := none }],
    next_id := 2 }

/-- Witness for C1 at a store holding one book and one active loan due
three days ago. -/
theorem C1_late_fee_schedule_witness :
    calculate_late_fee_for_book 0 dbW1 "123456" 1 =
      feeDict (roundHalfUp2 (min ((1/2 : ℚ) * ((min 3 7 : Int) : ℚ) +
        1 * ((max (3 - 7) 0 : Int) : ℚ)) 15)) 3 "OK"
    ∧ lateFeeAmount 0 = 0 ∧ lateFeeAmount 3 = 3/2 ∧ lateFeeAmount 7 = 7/2
    ∧ lateFeeAmount 8 = 9/2 ∧ lateFeeAmount 20 = 15 ∧ lateFeeAmount 40 = 15
    ∧ ∀ e : Int, 20 ≤ e → lateFeeAmount e = 15 :=
  C1_late_fee_schedule 0 dbW1 "123456" 1 bkW1 rowW1 3 (by decide) (by decide)
    (by decide) (by decide)

/-- C4: on valid inputs with a fresh ISBN, `add_book_to_catalog` succeeds and
the inserted book records `available_copies = total_copies = total_copies`
argument. -/
theorem C4_add_book_success (db : LibraryDb) (title author isbn : String)
    (tc : Int)
    (ht : ¬ pyStrip title = "") (ht2 : (pyStrip title).length ≤ 200)
    (ha : ¬ pyStrip author = "") (ha2 : (pyStrip author).length ≤ 100)
    (hi : isbn.length = 13) (htc : 0 < tc)
    (hdup : get_book_by_isbn db isbn = none) :
    (add_book_to_catalog db title author isbn tc).2.1 = true
    ∧ (add_book_to_catalog db title author isbn tc).1.books =
        db.books ++ [{ id := db.next_id, title := pyStrip title,
                       author := pyStrip author, isbn := isbn,
                       total_copies := tc, available_copies := tc }] := by
  have h1 : (pyStrip title == "") = false := beq_eq_false_iff_ne.mpr ht
  have h3 : (pyStrip author == "") = false := beq_eq_false_iff_ne.mpr ha
  have h5 : (isbn.length == 13) = true := beq_iff_eq.mpr hi
  constructor <;>
    simp [add_book_to_catalog, h1, h3, h5, not_lt.mpr ht2, not_lt.mpr ha2,
      not_le.mpr htc, hdup, insert_book]

def dbW4 : LibraryDb := { books := [], borrows := [], next_id := 1 }

/-- Witness for C4 on an empty store. -/
theorem C4_add_book_success_witness :
    (add_book_to_catalog dbW4 "T" "A" "1234567890123" 3).2.1 = true
    ∧ (add_book_to_catalog dbW4 "T" "A" "1234567890123" 3).1.books =
        dbW4.books ++ [{ id := dbW4.next_id, title := pyStrip "T",
                         author := pyStrip "A", isbn := "1234567890123",
                         total_copies := 3, available_copies := 3 }] :=
  C4_add_book_success dbW4 "T" "A" "1234567890123" 3 (by decide) (by decide)
    (by decide) (by decide) (by decide) (by decide) (by decide)

/-- C5: with an ISBN already present in the store and otherwise valid fields,
`add_book_to_catalog` fails with the "already exists" message and leaves the
store unchanged. -/
theorem C5_add_book_duplicate_isbn (db : LibraryDb) (title author isbn : String)
    (tc : Int) (b : Book)
    (ht : ¬ pyStrip title = "") (ht2 : (pyStrip title).length ≤ 200)
    (ha : ¬ pyStrip author = "") (ha2 : (pyStrip author).length ≤ 100)
    (hi : isbn.length = 13) (htc : 0 < tc)
    (hdup : get_book_by_isbn db isbn = some b) :
    add_book_to_catalog db title author isbn tc =
      (db, false, "A book with this ISBN already exists.") := by
  have h1 : (pyStrip title == "") = false := beq_eq_false_iff_ne.mpr ht
  have h3 : (pyStrip author == "") = false := beq_eq_false_iff_ne.mpr ha
  have h5 : (isbn.length == 13) = true := beq_iff_eq.mpr hi
  simp [add_book_to_catalog, h1, h3, h5, not_lt.mpr ht2, not_lt.mpr ha2,
    not_le.mpr htc, hdup]

/-- Witness for C5: adding the same ISBN twice, the second call fails and
changes nothing. -/
theorem C5_add_book_duplicate_isbn_witness :
    add_book_to_catalog ((add_book_to_catalog dbW4 "T" "A" "1234567890123" 3).1)
        "U" "B" "1234567890123" 1 =
      ((add_book_to_catalog dbW4 "T" "A" "1234567890123" 3).1, false,
        "A book with this ISBN already exists.") :=
  C5_add_book_duplicate_isbn _ "U" "B" "1234567890123" 1
    { id := 1, title := "T", author := "A", isbn := "1234567890123",
      total_copies := 3, available_copies := 3 }
    (by decide) (by decide) (by decide) (by decide) (by decide) (by decide)
    (by decide)

lemma any_id_of_find? (db : LibraryDb) (bid : Int) (book : Book)
    (hb : get_book_by_id db bid = some book) :
    db.books.any (fun b => b.id == bid) = true := by
  have hmem := List.mem_of_find?_eq_some hb
  have hp := List.find?_some hb
  exact List.any_eq_true.mpr ⟨book, hmem, hp⟩

lemma borrow_success (now : Datetime) (db : LibraryDb) (pid : String)
    (bid : Int) (book : Book)
    (hpid : validPatronId pid = true)
    (hb : get_book_by_id db bid = some book)
    (hav : 0 < book.available_copies)
    (hcnt : ¬ 5 < get_patron_borrow_count db pid) :
    borrow_book_by_patron now db pid bid =
      ({ books := db.books.map (fun b =>
           if b.id == bid then
             { b with available_copies := b.available_copies + (-1) }
           else b),
         borrows := db.borrows ++
           [{ patron_id := pid, book_id := bid, borrow_date := now,
              due_date := now + 14 * 86400, return_date := none }],
         next_id := db.next_id }, true,
       "Successfully borrowed \x22" ++ book.title ++ "\x22. Due date: " ++
         fmtDate (now + 14 * 86400) ++ ".") := by
  have hany : db.books.any (fun b => b.id == bid) = true :=
    any_id_of_find? db bid book hb
  simp [borrow_book_by_patron, hpid, hb, not_le.mpr hav, hcnt,
    insert_borrow_record, update_book_availability, hany]

/-- C2: with a valid patron id and an available existing book, borrowing
fails with the maximum-limit message exactly when the patron's active-loan
count exceeds 5; a patron holding exactly 5 active loans may still borrow a
6th book, while one holding 6 is blocked. -/
theorem C2_borrow_limit_boundary (now : Datetime) (db : LibraryDb)
    (pid : String) (bid : Int) (book : Book)
    (hpid : validPatronId pid = true)
    (hb : get_book_by_id db bid = some book)
    (hav : 0 < book.available_copies) :
    (borrow_book_by_patron now db pid bid =
        (db, false, "You have reached the maximum borrowing limit of 5 books.")
      ↔ 5 < get_patron_borrow_count db pid)
    ∧ (get_patron_borrow_count db pid = 5 →
        (borrow_book_by_patron now db pid bid).2.1 = true)
    ∧ (get_patron_borrow_count db pid = 6 →
        borrow_book_by_patron now db pid bid =
          (db, false,
            "You have reached the maximum borrowing limit of 5 books.")) := by
  by_cases hcnt : 5 < get_patron_borrow_count db pid
  · have hres : borrow_book_by_patron now db pid bid =
        (db, false, "You have reached the maximum borrowing limit of 5 books.") := by
      simp [borrow_book_by_patron, hpid, hb, not_le.mpr hav, hcnt]
    refine ⟨⟨fun _ => hcnt, fun _ => hres⟩, fun h5 => ?_, fun _ => hres⟩
    omega
  · rw [borrow_success now db pid bid book hpid hb hav hcnt]
    refine ⟨⟨fun he => ?_, fun hlt => absurd hlt hcnt⟩, fun _ => rfl,
      fun h6 => absurd (by omega : 5 < get_patron_borrow_count db pid) hcnt⟩
    simp [Prod.ext_iff] at he

def dbW2 : LibraryDb := { books := [bkW1], borrows := [], next_id := 2 }

/-- Witness for C2 on a store where the patron holds no active loans. -/
theorem C2_borrow_limit_boundary_witness :
    (borrow_book_by_patron 0 dbW2 "123456" 1 =
        (dbW2, false, "You have reached the maximum borrowing limit of 5 books.")
      ↔ 5 < get_patron_borrow_count dbW2 "123456")
    ∧ (get_patron_borrow_count dbW2 "123456" = 5 →
        (borrow_book_by_patron 0 dbW2 "123456" 1).2.1 = true)
    ∧ (get_patron_borrow_count dbW2 "123456" = 6 →
        borrow_book_by_patron 0 dbW2 "123456" 1 =
          (dbW2, false,
            "You have reached the maximum borrowing limit of 5 books.")) :=
  C2_borrow_limit_boundary 0 dbW2 "123456" 1 bkW1 (by decide) (by decide)
    (by decide)

lemma setReturnDate_eq_none (pid : String) (bid : Int) (rd : Datetime)
    (l : List BorrowRecord)
    (h : ∀ r ∈ l,
      (r.patron_id == pid && r.book_id == bid && r.return_date.isNone) = false) :
    setReturnDate pid bid rd l = none := by
  induction l with
  | nil => rfl
  | cons r rs ih =>
    simp only [setReturnDate, h r (List.mem_cons_self r rs)]
    simp [ih (fun x hx => h x (List.mem_cons_of_mem r hx))]

/-- C10: `return_book_by_patron` performs no patron-id format validation: on
a malformed patron id (with the store's records all well-formed, per the
data model in spec §3) it fails with the "not currently being borrowed"
message, leaves the store unchanged, and the internal fee computation
silently yields fee 0. -/
theorem C10_return_no_patron_validation (now : Datetime) (db : LibraryDb)
    (pid : String) (bid : Int) (book : Book)
    (hpid : validPatronId pid = false)
    (hb : get_book_by_id db bid = some book)
    (hwf : ∀ r ∈ db.borrows, validPatronId r.patron_id = true) :
    return_book_by_patron now db pid bid =
      (db, false, "This book is not currently being borrowed by this patron.")
    ∧ dictGetFloat (calculate_late_fee_for_book now db pid bid)
        "fee_amount" 0 = 0 := by
  have hnone : setReturnDate pid bid now db.borrows = none := by
    apply setReturnDate_eq_none
    intro r hr
    have hne : (r.patron_id == pid) = false := by
      apply beq_eq_false_iff_ne.mpr
      intro he
      have := hwf r hr
      rw [he] at this
      rw [this] at hpid
      exact Bool.noConfusion hpid
    simp [hne]
  constructor
  · simp [return_book_by_patron, hb, update_borrow_record_return_date, hnone]
  · rw [calc_fee_invalid now db pid bid hpid, dictGetFloat_feeDict]

/-- Witness for C10 with a malformed 5-digit patron id. -/
theorem C10_return_no_patron_validation_witness :
    return_book_by_patron 0 dbW1 "12345" 1 =
      (dbW1, false, "This book is not currently being borrowed by this patron.")
    ∧ dictGetFloat (calculate_late_fee_for_book 0 dbW1 "12345" 1)
        "fee_amount" 0 = 0 :=
  C10_return_no_patron_validation 0 dbW1 "12345" 1 bkW1 (by decide) (by decide)
    (by decide)

lemma append_ne_of_head_ne (a m b : String) (c₁ c₂ : Char)
    (h₁ : a.data.head? = some c₁) (h₂ : b.data.head? = some c₂)
    (hne : ¬ c₁ = c₂) : ¬ a ++ m = b := by
  intro h
  have hd : a.data ++ m.data = b.data := by
    rw [← String.data_append, h]
  cases ha : a.data with
  | nil => rw [ha] at h₁; exact Option.noConfusion h₁
  | cons x xs =>
    cases hb2 : b.data with
    | nil => rw [hb2] at h₂; exact Option.noConfusion h₂
    | cons y ys =>
      rw [ha] at h₁
      rw [hb2] at h₂
      rw [List.head?_cons] at h₁ h₂
      injection h₁ with h₁
      injection h₂ with h₂
      rw [ha, hb2, List.cons_append] at hd
      injection hd with hd1 _
      subst h₁
      subst h₂
      exact hne hd1

/-- C8: the payment gateway is never consulted when orchestration validation
fails: `pay_late_fees` is independent of the gateway argument when the
patron id is malformed or the computed fee is ≤ 0, and
`refund_late_fee_payment` is independent of the gateway argument when the
transaction id lacks the "txn_" prefix or the amount is outside (0, 15]. -/
theorem C8_gateway_not_invoked (now : Datetime) (db : LibraryDb)
    (pid : String) (bid : Int) (txn : String) (amount : ℚ)
    (g₁ g₂ : PaymentGateway) :
    ((validPatronId pid = false ∨
        dictGetFloat (calculate_late_fee_for_book now db pid bid)
          "fee_amount" 0 ≤ 0) →
      pay_late_fees now db pid bid g₁ = pay_late_fees now db pid bid g₂)
    ∧ ((pyStartsWith txn "txn_" = false ∨ amount ≤ 0 ∨ 15 < amount) →
      refund_late_fee_payment txn amount g₁ =
        refund_late_fee_payment txn amount g₂) := by
  constructor
  · intro h
    by_cases hv : validPatronId pid
    · have hfee : dictGetFloat (calculate_late_fee_for_book now db pid bid)
          "fee_amount" 0 ≤ 0 := by
        rcases h with h | h
        · rw [hv] at h; exact Bool.noConfusion h
        · exact h
      by_cases hc : dictContains (calculate_late_fee_for_book now db pid bid)
          "fee_amount"
      · simp [pay_late_fees, hv, hc, hfee]
      · simp [pay_late_fees, hv, hc]
    · have hv' : validPatronId pid = false := by
        simpa using hv
      simp [pay_late_fees, hv']
  · intro h
    by_cases h1 : (txn == "" || !(pyStartsWith txn "txn_")) = true
    · simp [refund_late_fee_payment, h1]
    · rcases h with h | h | h
      · exfalso
        apply h1
        simp [h]
      · simp [refund_late_fee_payment, h1, h]
      · by_cases h2 : amount ≤ 0
        · simp [refund_late_fee_payment, h1, h2]
        · simp [refund_late_fee_payment, h1, h2, h, not_le.mpr h]

def gwA : PaymentGateway :=
  { process_payment := fun _ _ _ => Except.ok (true, some "txn_1", "ok"),
    refund_payment := fun _ _ => Except.ok (true, "refunded") }

def gwB : PaymentGateway :=
  { process_payment := fun _ _ _ => Except.error "gateway down",
    refund_payment := fun _ _ => Except.error "gateway down" }

/-- Witness for C8: a malformed patron id and a prefix-less transaction id
give gateway-independent results for two gateways that disagree. -/
theorem C8_gateway_not_invoked_witness :
    pay_late_fees 0 dbW2 "12345" 1 gwA = pay_late_fees 0 dbW2 "12345" 1 gwB
    ∧ refund_late_fee_payment "abc" 1 gwA =
        refund_late_fee_payment "abc" 1 gwB :=
  ⟨(C8_gateway_not_invoked 0 dbW2 "12345" 1 "abc" 1 gwA gwB).1
      (Or.inl (by decide)),
   (C8_gateway_not_invoked 0 dbW2 "12345" 1 "abc" 1 gwA gwB).2
      (Or.inl (by decide))⟩

/-- C9: under a fixed store state the two failure branches of
`pay_late_fees` between fee computation and the gateway call are
unreachable: the fee dict always carries the key "fee_amount", a positive
fee implies the book lookup succeeds, and no run of `pay_late_fees` returns
the "Unable to calculate late fees." or "Book not found." message. -/
theorem C9_pay_branches_unreachable (now : Datetime) (db : LibraryDb)
    (pid : String) (bid : Int) :
    dictContains (calculate_late_fee_for_book now db pid bid)
      "fee_amount" = true
    ∧ (0 < dictGetFloat (calculate_late_fee_for_book now db pid bid)
          "fee_amount" 0 →
        (get_book_by_id db bid).isSome = true)
    ∧ ∀ g : PaymentGateway,
        ¬ (pay_late_fees now db pid bid g).2.1 = "Unable to calculate late fees."
        ∧ ¬ (pay_late_fees now db pid bid g).2.1 = "Book not found." := by
  have hshape : ∃ q d s,
      calculate_late_fee_for_book now db pid bid = feeDict q d s := by
    by_cases hv : validPatronId pid
    · cases hb : get_book_by_id db bid with
      | none => exact ⟨0, 0, _, calc_fee_no_book now db pid bid hv hb⟩
      | some bk =>
        cases hrec : (get_patron_borrowed_books now db pid).find?
            (fun r => r.book_id == bid) with
        | none => exact ⟨0, 0, _, calc_fee_no_active now db pid bid bk hv hb hrec⟩
        | some rec => exact ⟨_, _, _, calc_fee_ok now db pid bid bk rec hv hb hrec⟩
    · exact ⟨0, 0, _,
        calc_fee_invalid now db pid bid (by simpa using hv)⟩
  have hcontains : dictContains (calculate_late_fee_for_book now db pid bid)
      "fee_amount" = true := by
    obtain ⟨q, d, s, hq⟩ := hshape
    rw [hq]
    exact dictContains_feeDict q d s
  have hbook : 0 < dictGetFloat (calculate_late_fee_for_book now db pid bid)
      "fee_amount" 0 → (get_book_by_id db bid).isSome = true := by
    intro hpos
    by_cases hv : validPatronId pid
    · cases hb : get_book_by_id db bid with
      | none =>
        rw [calc_fee_no_book now db pid bid hv hb, dictGetFloat_feeDict]
          at hpos
        exact absurd hpos (by norm_num)
      | some bk => simp
    · rw [calc_fee_invalid now db pid bid (by simpa using hv),
        dictGetFloat_feeDict] at hpos
      exact absurd hpos (by norm_num)
  refine ⟨hcontains, hbook, fun g => ?_⟩
  by_cases hv : validPatronId pid
  · by_cases hfee : dictGetFloat (calculate_late_fee_for_book now db pid bid)
        "fee_amount" 0 ≤ 0
    · have : pay_late_fees now db pid bid g =
          (false, "No late fees to pay for this book.", none) := by
        simp [pay_late_fees, hv, hcontains, hfee]
      rw [this]
      exact ⟨by decide, by decide⟩
    · have hpos : 0 < dictGetFloat (calculate_late_fee_for_book now db pid bid)
          "fee_amount" 0 := lt_of_not_le hfee
      obtain ⟨bk, hbk⟩ := Option.isSome_iff_exists.mp (hbook hpos)
      have hpay : pay_late_fees now db pid bid g =
          match g.process_payment pid
              (dictGetFloat (calculate_late_fee_for_book now db pid bid)
                "fee_amount" 0)
              ("Late fees for \x27" ++ bk.title ++ "\x27") with
          | Except.ok (true, transaction_id, message) =>
            (true, "Payment successful! " ++ message, transaction_id)
          | Except.ok (false, _, message) =>
            (false, "Payment failed: " ++ message, none)
          | Except.error e =>
            (false, "Payment processing error: " ++ e, none) := by
        simp [pay_late_fees, hv, hcontains, hfee, hbk]
      rw [hpay]
      cases hres : g.process_payment pid
          (dictGetFloat (calculate_late_fee_for_book now db pid bid)
            "fee_amount" 0)
          ("Late fees for \x27" ++ bk.title ++ "\x27") with
      | error e =>
        exact ⟨append_ne_of_head_ne "Payment processing error: " e
            "Unable to calculate late fees." 'P' 'U' rfl rfl (by decide),
          append_ne_of_head_ne "Payment processing error: " e
            "Book not found." 'P' 'B' rfl rfl (by decide)⟩
      | ok res =>
        obtain ⟨b, t, msg⟩ := res
        cases b
        · exact ⟨append_ne_of_head_ne "Payment failed: " msg
              "Unable to calculate late fees." 'P' 'U' rfl rfl (by decide),
            append_ne_of_head_ne "Payment failed: " msg
              "Book not found." 'P' 'B' rfl rfl (by decide)⟩
        · exact ⟨append_ne_of_head_ne "Payment successful! " msg
              "Unable to calculate late fees." 'P' 'U' rfl rfl (by decide),
            append_ne_of_head_ne "Payment successful! " msg
              "Book not found." 'P' 'B' rfl rfl (by decide)⟩
  · have : pay_late_fees now db pid bid g =
        (false, "Invalid patron ID. Must be exactly 6 digits.", none) := by
      simp [pay_late_fees, (by simpa using hv : validPatronId pid = false)]
    rw [this]
    exact ⟨by decide, by decide⟩

/-- Witness for C9: at an overdue loan the fee is positive and the book
lookup indeed succeeds. -/
theorem C9_pay_branches_unreachable_witness :
    (get_book_by_id dbW1 1).isSome = true :=
  (C9_pay_branches_unreachable 0 dbW1 "123456" 1).2.1 (by
    rw [calc_fee_ok 0 dbW1 "123456" 1 bkW1 rowW1 (by decide) (by decide)
      (by decide), dictGetFloat_feeDict]
    have h3 : max (dateOf 0 - dateOf rowW1.due_date) 0 = 3 := by decide
    rw [h3]
    norm_num [lateFeeAmount, roundHalfUp2, min_def, max_def])

lemma get_book_after_update (books : List Book) (bid delta : Int) (book : Book)
    (hb : books.find? (fun b => b.id == bid) = some book) :
    (books.map (fun b =>
        if b.id == bid then
          { b with available_copies := b.available_copies + delta }
        else b)).find? (fun b => b.id == bid) =
      some { book with available_copies := book.available_copies + delta } := by
  rw [List.find?_map]
  have hcomp : ((fun b : Book => b.id == bid) ∘ (fun b : Book =>
      if b.id == bid then
        { b with available_copies := b.available_copies + delta }
      else b)) = (fun b : Book => b.id == bid) := by
    funext b
    by_cases h : (b.id == bid) = true
    · simp [Function.comp, h]
    · simp [Function.comp, h]
  rw [hcomp, hb]
  have hp := List.find?_some hb
  simp only [Option.map_some']
  rw [if_pos hp]

lemma setReturnDate_append (pid : String) (bid : Int) (rd : Datetime)
    (l : List BorrowRecord) (rec : BorrowRecord)
    (hl : ∀ r ∈ l,
      (r.patron_id == pid && r.book_id == bid && r.return_date.isNone) = false)
    (hrec : (rec.patron_id == pid && rec.book_id == bid &&
      rec.return_date.isNone) = true) :
    setReturnDate pid bid rd (l ++ [rec]) =
      some (l ++ [{ rec with return_date := some rd }]) := by
  induction l with
  | nil => simp [setReturnDate, hrec]
  | cons r rs ih =>
    simp only [List.cons_append, setReturnDate, hl r (List.mem_cons_self r rs)]
    simp [ih (fun x hx => hl x (List.mem_cons_of_mem r hx))]

lemma return_no_active (now : Datetime) (db : LibraryDb) (pid : String)
    (bid : Int) (book : Book)
    (hb : get_book_by_id db bid = some book)
    (hnone : setReturnDate pid bid now db.borrows = none) :
    return_book_by_patron now db pid bid =
      (db, false, "This book is not currently being borrowed by this patron.") := by
  simp [return_book_by_patron, hb, update_borrow_record_return_date, hnone]

lemma return_success (now : Datetime) (db : LibraryDb) (pid : String)
    (bid : Int) (book : Book) (borrows1 : List BorrowRecord)
    (hb : get_book_by_id db bid = some book)
    (hsrd : setReturnDate pid bid now db.borrows = some borrows1) :
    (return_book_by_patron now db pid bid).1 =
      { books := db.books.map (fun b =>
          if b.id == bid then
            { b with available_copies := b.available_copies + 1 }
          else b),
        borrows := borrows1, next_id := db.next_id }
    ∧ (return_book_by_patron now db pid bid).2.1 = true := by
  have hany : db.books.any (fun b => b.id == bid) = true :=
    any_id_of_find? db bid book hb
  constructor
  · simp only [return_book_by_patron, hb, update_borrow_record_return_date,
      hsrd, update_book_availability, hany, if_true, Bool.not_true,
      Bool.false_eq_true, if_false]
    split
    · rfl
    · rfl
  · simp only [return_book_by_patron, hb, update_borrow_record_return_date,
      hsrd, update_book_availability, hany, if_true, Bool.not_true,
      Bool.false_eq_true, if_false]
    split
    · rfl
    · rfl

/-- C3: a successful borrow then return on the same (patron, book) restores
`available_copies` to its pre-round-trip value (borrow decrements by 1,
return increments by 1), and a second return, with no remaining active
record, fails with the "not currently being borrowed" message. -/
theorem C3_borrow_return_roundtrip (t1 t2 t3 : Datetime) (db : LibraryDb)
    (pid : String) (bid : Int) (book : Book)
    (hpid : validPatronId pid = true)
    (hb : get_book_by_id db bid = some book)
    (hav : 0 < book.available_copies)
    (hcnt : ¬ 5 < get_patron_borrow_count db pid)
    (hno : ∀ r ∈ db.borrows,
      (r.patron_id == pid && r.book_id == bid && r.return_date.isNone) = false) :
    (borrow_book_by_patron t1 db pid bid).2.1 = true
    ∧ (get_book_by_id (borrow_book_by_patron t1 db pid bid).1 bid).map
        Book.available_copies = some (book.available_copies - 1)
    ∧ (return_book_by_patron t2 (borrow_book_by_patron t1 db pid bid).1
        pid bid).2.1 = true
    ∧ (get_book_by_id (return_book_by_patron t2
        (borrow_book_by_patron t1 db pid bid).1 pid bid).1 bid).map
        Book.available_copies = some book.available_copies
    ∧ return_book_by_patron t3 (return_book_by_patron t2
        (borrow_book_by_patron t1 db pid bid).1 pid bid).1 pid bid =
      ((return_book_by_patron t2 (borrow_book_by_patron t1 db pid bid).1
          pid bid).1, false,
        "This book is not currently being borrowed by this patron.") := by
  have hbor := borrow_success t1 db pid bid book hpid hb hav hcnt
  have hP1 : (borrow_book_by_patron t1 db pid bid).1 =
      ({ books := db.books.map (fun b =>
           if b.id == bid then
             { b with available_copies := b.available_copies + (-1) }
           else b),
         borrows := db.borrows ++
           [{ patron_id := pid, book_id := bid, borrow_date := t1,
              due_date := t1 + 14 * 86400, return_date := none }],
         next_id := db.next_id } : LibraryDb) := by rw [hbor]
  have hP2 : (borrow_book_by_patron t1 db pid bid).2.1 = true := by rw [hbor]
  have hfind1 : get_book_by_id
      ({ books := db.books.map (fun b =>
           if b.id == bid then
             { b with available_copies := b.available_copies + (-1) }
           else b),
         borrows := db.borrows ++
           [{ patron_id := pid, book_id := bid, borrow_date := t1,
              due_date := t1 + 14 * 86400, return_date := none }],
         next_id := db.next_id } : LibraryDb) bid =
      some { book with available_copies := book.available_copies + (-1) } :=
    get_book_after_update db.books bid (-1) book hb
  have hsrd : setReturnDate pid bid t2 (db.borrows ++
      [{ patron_id := pid, book_id := bid, borrow_date := t1,
         due_date := t1 + 14 * 86400, return_date := none }]) =
      some (db.borrows ++
        [{ patron_id := pid, book_id := bid, borrow_date := t1,
           due_date := t1 + 14 * 86400, return_date := some t2 }]) :=
    setReturnDate_append pid bid t2 db.borrows _ hno (by simp)
  have hret := return_success t2
    ({ books := db.books.map (fun b =>
         if b.id == bid then
           { b with available_copies := b.available_copies + (-1) }
         else b),
       borrows := db.borrows ++
         [{ patron_id := pid, book_id := bid, borrow_date := t1,
            due_date := t1 + 14 * 86400, return_date := none }],
       next_id := db.next_id } : LibraryDb) pid bid
    { book with available_copies := book.available_copies + (-1) }
    (db.borrows ++
      [{ patron_id := pid, book_id := bid, borrow_date := t1,
         due_date := t1 + 14 * 86400, return_date := some t2 }])
    hfind1 hsrd
  have hQ1 : (return_book_by_patron t2
      ({ books := db.books.map (fun b =>
           if b.id == bid then
             { b with available_copies := b.available_copies + (-1) }
           else b),
         borrows := db.borrows ++
           [{ patron_id := pid, book_id := bid, borrow_date := t1,
              due_date := t1 + 14 * 86400, return_date := none }],
         next_id := db.next_id } : LibraryDb) pid bid).1 =
      ({ books := (db.books.map (fun b =>
           if b.id == bid then
             { b with available_copies := b.available_copies + (-1) }
           else b)).map (fun b =>
           if b.id == bid then
             { b with available_copies := b.available_copies + 1 }
           else b),
         borrows := db.borrows ++
           [{ patron_id := pid, book_id := bid, borrow_date := t1,
              due_date := t1 + 14 * 86400, return_date := some t2 }],
         next_id := db.next_id } : LibraryDb) := hret.1
  have hfind2 : get_book_by_id
      ({ books := (db.books.map (fun b =>
           if b.id == bid then
             { b with available_copies := b.available_copies + (-1) }
           else b)).map (fun b =>
           if b.id == bid then
             { b with available_copies := b.available_copies + 1 }
           else b),
         borrows := db.borrows ++
           [{ patron_id := pid, book_id := bid, borrow_date := t1,
              due_date := t1 + 14 * 86400, return_date := some t2 }],
         next_id := db.next_id } : LibraryDb) bid =
      some { book with available_copies := book.available_copies + (-1) + 1 } :=
    get_book_after_update _ bid 1 _ hfind1
  have hnone3 : setReturnDate pid bid t3 (db.borrows ++
      [{ patron_id := pid, book_id := bid, borrow_date := t1,
         due_date := t1 + 14 * 86400, return_date := some t2 }]) = none := by
    apply setReturnDate_eq_none
    intro r hr
    rcases List.mem_append.mp hr with hmem | hmem
    · exact hno r hmem
    · rw [List.mem_singleton.mp hmem]
      simp
  refine ⟨hP2, ?_, ?_, ?_, ?_⟩
  · rw [hP1, hfind1]
    simp only [Option.map_some']
    rw [Option.some_inj]
    omega
  · rw [hP1]
    exact hret.2
  · rw [hP1, hQ1, hfind2]
    simp only [Option.map_some']
    rw [Option.some_inj]
    omega
  · rw [hP1, hQ1]
    exact return_no_active t3 _ pid bid
      { book with available_copies := book.available_copies + (-1) + 1 }
      hfind2 hnone3

/-- Witness for C3: one-book store, borrow at time 0, return a day later,
second return attempt another day later. -/
theorem C3_borrow_return_roundtrip_witness :
    (borrow_book_by_patron 0 dbW2 "123456" 1).2.1 = true
    ∧ (get_book_by_id (borrow_book_by_patron 0 dbW2 "123456" 1).1 1).map
        Book.available_copies = some (bkW1.available_copies - 1)
    ∧ (return_book_by_patron 86400 (borrow_book_by_patron 0 dbW2 "123456" 1).1
        "123456" 1).2.1 = true
    ∧ (get_book_by_id (return_book_by_patron 86400
        (borrow_book_by_patron 0 dbW2 "123456" 1).1 "123456" 1).1 1).map
        Book.available_copies = some bkW1.available_copies
    ∧ return_book_by_patron 172800 (return_book_by_patron 86400
        (borrow_book_by_patron 0 dbW2 "123456" 1).1 "123456" 1).1 "123456" 1 =
      ((return_book_by_patron 86400 (borrow_book_by_patron 0 dbW2 "123456" 1).1
          "123456" 1).1, false,
        "This book is not currently being borrowed by this patron.") :=
  C3_borrow_return_roundtrip 0 86400 172800 dbW2 "123456" 1 bkW1 (by decide)
    (by decide) (by decide) (by decide) (by decide)

lemma search_isbn_mem (db : LibraryDb) (term : String) (b : Book)
    (hterm : ¬ pyStrip term = "") :
    b ∈ search_books_in_catalog db term "isbn" ↔
      b ∈ db.books ∧ normIsbn (pyStrip term) = normIsbn b.isbn := by
  have ht : (pyStrip term == "") = false := beq_eq_false_iff_ne.mpr hterm
  have e1 : (("isbn" : String) == "") = false := by decide
  have e2 : pyFold "isbn" = "isbn" := by decide
  have e3 : (["title", "author", "isbn", "all"].contains ("isbn" : String))
      = true := by decide
  have e4 : (("isbn" : String) == "title") = false := by decide
  have e5 : (("isbn" : String) == "author") = false := by decide
  have e6 : (("isbn" : String) == "isbn") = true := by decide
  simp only [search_books_in_catalog, ht, Bool.false_eq_true, if_false, e1,
    e2, e3, if_true, get_all_books, mem_bookSort, List.mem_filter,
    searchMatches, e4, e5, e6, beq_iff_eq]

lemma search_all_mem (db : LibraryDb) (term : String) (b : Book)
    (hterm : ¬ pyStrip term = "") :
    b ∈ search_books_in_catalog db term "all" ↔
      b ∈ db.books ∧
        (pySubstr (pyFold (pyStrip term)) (pyFold b.title) = true
         ∨ pySubstr (pyFold (pyStrip term)) (pyFold b.author) = true
         ∨ (¬ normIsbn (pyStrip term) = ""
            ∧ pySubstr (normIsbn (pyStrip term)) (normIsbn b.isbn) = true)) := by
  have ht : (pyStrip term == "") = false := beq_eq_false_iff_ne.mpr hterm
  have e1 : (("all" : String) == "") = false := by decide
  have e2 : pyFold "all" = "all" := by decide
  have e3 : (["title", "author", "isbn", "all"].contains ("all" : String))
      = true := by decide
  have e4 : (("all" : String) == "title") = false := by decide
  have e5 : (("all" : String) == "author") = false := by decide
  have e6 : (("all" : String) == "isbn") = false := by decide
  simp only [search_books_in_catalog, ht, Bool.false_eq_true, if_false, e1,
    e2, e3, if_true, get_all_books, mem_bookSort, List.mem_filter,
    searchMatches, e4, e5, e6, Bool.or_eq_true, Bool.and_eq_true,
    Bool.not_eq_true', beq_eq_false_iff_ne, or_assoc]

def bkC6 : Book :=
  { id := 1, title := "t", author := "a", isbn := "-------------",
    total_copies := 1, available_copies := 1 }

def dbC6 : LibraryDb := { books := [bkC6], borrows := [], next_id := 2 }

/-- C6 counterexample: with the non-blank term "-" and a stored ISBN of 13
hyphens, both sides normalise to the empty string, so the book is an
isbn-mode match, yet it is not an all-mode match, because the `all` branch
requires the normalised term to be non-empty (Python truthiness); hence
"every isbn-mode match is an all-mode match" fails as universally stated. -/
theorem C6_isbn_subset_all_counterexample :
    bkC6 ∈ search_books_in_catalog dbC6 "-" "isbn"
    ∧ ¬ bkC6 ∈ search_books_in_catalog dbC6 "-" "all" := by decide

/-- C6 (amended): for every catalog and non-blank term, isbn-mode search
returns exactly the books whose stored ISBN equals the term under
hyphen/space normalisation; provided the normalised term is non-empty,
every isbn-mode match is also an all-mode match; and the converse fails:
a book can match all-mode (substring) without matching isbn-mode. -/
theorem C6_search_isbn_amended :
    (∀ (db : LibraryDb) (term : String) (b : Book), ¬ pyStrip term = "" →
      (b ∈ search_books_in_catalog db term "isbn" ↔
        b ∈ db.books ∧ normIsbn (pyStrip term) = normIsbn b.isbn))
    ∧ (∀ (db : LibraryDb) (term : String) (b : Book), ¬ pyStrip term = "" →
        ¬ normIsbn (pyStrip term) = "" → b ∈ db.books →
        pySubstr (normIsbn (pyStrip term)) (normIsbn b.isbn) = true →
        b ∈ search_books_in_catalog db term "all")
    ∧ (∀ (db : LibraryDb) (term : String) (b : Book), ¬ pyStrip term = "" →
        ¬ normIsbn (pyStrip term) = "" →
        b ∈ search_books_in_catalog db term "isbn" →
        b ∈ search_books_in_catalog db term "all")
    ∧ (bkW1 ∈ search_books_in_catalog dbW2 "345" "all"
       ∧ ¬ bkW1 ∈ search_books_in_catalog dbW2 "345" "isbn") := by
  refine ⟨fun db term b hterm => search_isbn_mem db term b hterm,
    fun db term b hterm hnz hmemb hsub => (search_all_mem db term b hterm).mpr
      ⟨hmemb, Or.inr (Or.inr ⟨hnz, hsub⟩)⟩,
    fun db term b hterm hnz hmem => ?_, by decide⟩
  obtain ⟨hmemb, heq⟩ := (search_isbn_mem db term b hterm).mp hmem
  refine (search_all_mem db term b hterm).mpr
    ⟨hmemb, Or.inr (Or.inr ⟨hnz, ?_⟩)⟩
  rw [← heq]
  exact pySubstr_self (normIsbn (pyStrip term))

/-- Witness for the amended C6 at a concrete catalog and term. -/
theorem C6_search_isbn_amended_witness :
    bkW1 ∈ search_books_in_catalog dbW2 "1234567890123" "isbn" ↔
      bkW1 ∈ dbW2.books
      ∧ normIsbn (pyStrip "1234567890123") = normIsbn bkW1.isbn :=
  C6_search_isbn_amended.1 dbW2 "1234567890123" bkW1 (by decide)

lemma reportStep_next (now : Datetime) (acc : Nat × Option Datetime × List ReportRow)
    (r : LoanRow) :
    (reportStep now acc r).2.1 =
      match acc.2.1 with
      | none => some r.due_date
      | some x => some (min x r.due_date) := by
  cases h : acc.2.1 with
  | none => simp [reportStep, h]
  | some x =>
    simp only [reportStep, h]
    rcases lt_or_le r.due_date x with hlt | hle
    · rw [if_pos hlt, min_eq_right (le_of_lt hlt)]
    · rw [if_neg (not_lt.mpr hle), min_eq_left hle]

lemma foldl_reportStep_next (now : Datetime) (rows : List LoanRow) :
    ∀ acc : Nat × Option Datetime × List ReportRow,
      (rows.foldl (reportStep now) acc).2.1 =
        match acc.2.1 with
        | none => (rows.map (fun r => r.due_date)).min?
        | some x => some ((rows.map (fun r => r.due_date)).foldl min x) := by
  induction rows with
  | nil =>
    intro acc
    cases h : acc.2.1 with
    | none => simp [h, List.min?]
    | some x => simp [h]
  | cons r rs ih =>
    intro acc
    rw [List.foldl_cons, ih, reportStep_next]
    cases h : acc.2.1 with
    | none => simp [h, List.min?]
    | some x => simp [h]

/-- C7: for a valid 6-digit patron id, the report carries
`remaining_allowance = max(0, 5 - borrowed_count)` and `next_due_date`
equal to the minimum due date among the patron's active loans; a patron
with zero active loans gets allowance 5, no next due date, and an empty
borrowed list. -/
theorem C7_patron_report (now : Datetime) (db : LibraryDb) (pid : String)
    (hpid : validPatronId pid = true) :
    (get_patron_status_report now db pid).remaining_allowance =
      max 0 (5 - (get_patron_borrow_count db pid : Int))
    ∧ (get_patron_status_report now db pid).next_due_date =
        ((get_patron_borrowed_books now db pid).map
          (fun r => r.due_date)).min?.map fmtDate
    ∧ (get_patron_borrow_count db pid = 0 →
        (get_patron_status_report now db pid).remaining_allowance = 5
        ∧ (get_patron_status_report now db pid).next_due_date = none
        ∧ (get_patron_status_report now db pid).borrowed_books = []) := by
  have hnext : (get_patron_status_report now db pid).next_due_date =
      ((get_patron_borrowed_books now db pid).map
        (fun r => r.due_date)).min?.map fmtDate := by
    simp only [get_patron_status_report, hpid, Bool.not_true,
      Bool.false_eq_true, if_false]
    rw [foldl_reportStep_next]
  refine ⟨by simp [get_patron_status_report, hpid], hnext, fun hzero => ?_⟩
  have hzero' : (db.borrows.filter
      (fun r => r.patron_id == pid && r.return_date.isNone)).length = 0 := hzero
  have hfil : db.borrows.filter
      (fun r => r.patron_id == pid && r.return_date.isNone) = [] :=
    List.length_eq_zero.mp hzero'
  have hrows : get_patron_borrowed_books now db pid = [] := by
    simp [get_patron_borrowed_books, hfil]
  refine ⟨?_, ?_, ?_⟩
  · simp [get_patron_status_report, hpid, get_patron_borrow_count, hfil]
  · rw [hnext, hrows]
    simp [List.min?]
  · simp [get_patron_status_report, hpid, hrows]

/-- Witness for C7: a patron with zero active loans. -/
theorem C7_patron_report_witness :
    (get_patron_status_report 0 dbW2 "123456").remaining_allowance = 5
    ∧ (get_patron_status_report 0 dbW2 "123456").next_due_date = none
    ∧ (get_patron_status_report 0 dbW2 "123456").borrowed_books = [] :=
  (C7_patron_report 0 dbW2 "123456" (by decide)).2.2 (by decide)
